import Mathlib

/-!
Shallow embedding of the Wialon integration connector
(`app/actions/client.py` and `app/actions/handlers.py`).

Timestamps, coordinates and other numeric payload fields are modelled as
`Int`; the code never computes with them, it only compares timestamps and
carries the rest through.  External calls (vendor HTTP endpoints, the
downstream delivery endpoint) are modelled by environments mapping the
index of the call to its outcome; the state store (cached session token,
per-device watermarks) is threaded explicitly.  Python exceptions are
modelled with `Except`.
-/

namespace Wialon

/-! ## Data model (`client.py` pydantic models) -/

/-- `WialonDataResponsePos`: a device's last known position
(field names follow the source's short vendor keys). -/
structure WialonDataResponsePos where
  t : Int
  f : Int
  y : Int
  x : Int
  c : Int
  z : Int
  s : Int
  sc : Int
deriving DecidableEq, Repr

/-- `WialonDataResponse`: a vendor device record; `pos` may be absent. -/
structure WialonDataResponse where
  nm : String
  id : Int
  pos : Option WialonDataResponsePos
deriving DecidableEq, Repr

/-- `WialonResponse`: the parsed positions response. -/
structure WialonResponse where
  items : List WialonDataResponse
deriving DecidableEq, Repr

/-- The `additional` attributes of a canonical observation: the position
dict after `recorded_at`, `latitude` and `longitude` were popped. -/
structure AdditionalData where
  sensors_flags : Int
  course : Int
  altitude : Int
  speed : Int
  satellites_count : Int
deriving DecidableEq, Repr

structure Location where
  lat : Int
  lon : Int
deriving DecidableEq, Repr

/-- Canonical observation produced by `transform` in `filter_and_transform`. -/
structure Observation where
  source : Int
  source_name : String
  type : String
  recorded_at : Int
  location : Location
  additional : AdditionalData
deriving DecidableEq, Repr

/-- Entry of the `devices_without_position` list. -/
structure SkippedDevice where
  device_id : Int
  device_name : String
deriving DecidableEq, Repr

/-! ## `filter_and_transform` (`handlers.py` lines 20-78) -/

/-- The inner `transform` closure of `filter_and_transform`. -/
def transform (d : WialonDataResponse) (p : WialonDataResponsePos) : Observation :=
  { source := d.id
    source_name := d.nm
    type := "tracking-device"
    recorded_at := p.t
    location := { lat := p.y, lon := p.x }
    additional :=
      { sensors_flags := p.f
        course := p.c
        altitude := p.z
        speed := p.s
        satellites_count := p.sc } }

/-- The loop of `filter_and_transform`, instrumented with the list of device
ids for which a watermark `get_state` read was issued (third component).
`wm` is the watermark slice of the state store for this integration and
action: device id to stored `latest_device_timestamp` (absent or empty
state reads as `none`).  The function performs no state writes: the source
has no `set_state` call here (writes happen only in the orchestrator). -/
def filter_and_transform_traced :
    List WialonDataResponse → (Int → Option Int) →
      List Observation × List SkippedDevice × List Int
  | [], _ => ([], [], [])
  | d :: rest, wm =>
    match d.pos with
    | none =>
      -- Skip devices without position data; no state read.
      let r := filter_and_transform_traced rest wm
      (r.1, ⟨d.id, d.nm⟩ :: r.2.1, r.2.2)
    | some p =>
      -- Get current state for the device.
      let r := filter_and_transform_traced rest wm
      match wm d.id with
      | some w =>
        if p.t ≤ w then
          -- Data is not new, not transform
          (r.1, r.2.1, d.id :: r.2.2)
        else
          (transform d p :: r.1, r.2.1, d.id :: r.2.2)
      | none => (transform d p :: r.1, r.2.1, d.id :: r.2.2)

/-- `filter_and_transform`: returns (transformed_data, devices_without_position). -/
def filter_and_transform (devices : List WialonDataResponse) (wm : Int → Option Int) :
    List Observation × List SkippedDevice :=
  ((filter_and_transform_traced devices wm).1, (filter_and_transform_traced devices wm).2.1)

/-- The device ids for which `filter_and_transform` issued a watermark read. -/
def watermarkReads (devices : List WialonDataResponse) (wm : Int → Option Int) : List Int :=
  (filter_and_transform_traced devices wm).2.2

/-! ## Client (`client.py`) -/

/-- Outcome of one HTTP call to `ajax.html?svc=token/login`.
`errorBody` means the JSON body contains the key `error` (with its code and
optional `reason`); `successBody` means no `error` key and an `eid` value. -/
inductive LoginOutcome
  | httpError (msg : String)
  | errorBody (code : Int) (reason : Option String)
  | successBody (eid : String)
deriving DecidableEq, Repr

/-- Outcome of one HTTP call to `ajax.html?svc=core/search_items`.
`body err items`: the JSON body, with `err` the value of the `error` key if
present, and `items` the parsed item list. -/
inductive PositionsOutcome
  | httpError (msg : String)
  | body (error : Option Int) (items : List WialonDataResponse)
deriving DecidableEq, Repr

/-- Environment fixing the outcome of the i-th login call and the i-th
positions call of a run. -/
structure ClientEnv where
  login : Nat → LoginOutcome
  positions : Nat → PositionsOutcome

/-- The three exception classes escaping client functions:
`WialonErrorException`, `WialonInvalidSessionException`, `httpx.HTTPError`. -/
inductive ClientError
  | wialonError (msg : String)
  | invalidSession (msg : String)
  | httpError (msg : String)
deriving DecidableEq, Repr

/-- The state-store slice the client touches: the cached session token
(state under action `get_authentication_token`, as `{eid: token}`), plus
counters of outbound calls made so far (selecting the environment entry
for the next call). -/
structure ClientState where
  session : Option String
  loginCalls : Nat
  posCalls : Nat
deriving DecidableEq, Repr

/-- Message of the `WialonErrorException` raised by `get_authentication_token`:
`json_response.get('reason', json_response.get('error'))` interpolated. -/
def loginErrorText (code : Int) (reason : Option String) : String :=
  let a := reason.getD (toString code)
  s!"Error {a} occurred while fetching token"

/-- `get_authentication_token`: posts the login request, raises on an
`error` key in the body, otherwise caches `{eid: ...}` and returns `eid`. -/
def get_authentication_token (env : ClientEnv) (s : ClientState) :
    Except ClientError String × ClientState :=
  match env.login s.loginCalls with
  | .httpError m =>
    (.error (.httpError m), { s with loginCalls := s.loginCalls + 1 })
  | .errorBody code reason =>
    (.error (.wialonError (loginErrorText code reason)), { s with loginCalls := s.loginCalls + 1 })
  | .successBody eid =>
    (.ok eid, { s with session := some eid, loginCalls := s.loginCalls + 1 })

/-- `json.dumps` of the fixed `WialonDataRequestParams` query specification. -/
def wialonRequestParamsJson : String :=
  "\x7b\"spec\": \x7b\"itemsType\": \"avl_unit\", \"propName\": \"sys_name, sys_id\", \"propValueMask\": \"*\", \"sortType\": \"sys_name\"\x7d, \"force\": 1, \"flags\": 1025, \"from\": 0, \"to\": 0\x7d"

/-- The dict returned by `build_request_params`. -/
structure RequestParams where
  params : String
  sid : String
deriving DecidableEq, Repr

/-- `build_request_params`: uses the cached token as `sid` when present,
otherwise logs in (caching the fresh token) and uses the login's `eid`. -/
def build_request_params (env : ClientEnv) (s : ClientState) :
    Except ClientError RequestParams × ClientState :=
  match s.session with
  | some tok => (.ok ⟨wialonRequestParamsJson, tok⟩, s)
  | none =>
    match get_authentication_token env s with
    | (.ok eid, s') => (.ok ⟨wialonRequestParamsJson, eid⟩, s')
    | (.error e, s') => (.error e, s')

/-- Message of the `WialonErrorException` raised by `get_positions_list`. -/
def positionsErrorText (code : Int) : String :=
  s!"Error {code} occurred while fetching positions"

/-- One attempt of `get_positions_list` (the decorated function's body):
build request params, post, then inspect the body's `error` key.
`error == 1`: delete the cached session state and raise
`WialonInvalidSessionException`; any other present `error` key: raise
`WialonErrorException`; no `error` key: parse the items. -/
def get_positions_list_once (env : ClientEnv) (s : ClientState) :
    Except ClientError WialonResponse × ClientState :=
  match build_request_params env s with
  | (.error e, s') => (.error e, s')
  | (.ok _, s') =>
    match env.positions s'.posCalls with
    | .httpError m =>
      (.error (.httpError m), { s' with posCalls := s'.posCalls + 1 })
    | .body (some code) _ =>
      if code = 1 then
        (.error (.invalidSession "Invalid session."),
          { s' with session := none, posCalls := s'.posCalls + 1 })
      else
        (.error (.wialonError (positionsErrorText code)),
          { s' with posCalls := s'.posCalls + 1 })
    | .body none items =>
      (.ok ⟨items⟩, { s' with posCalls := s'.posCalls + 1 })

/-- The `stamina.retry(on=WialonInvalidSessionException, attempts=n)` loop
around `get_positions_list_once`: only the invalid-session exception is
retried; it is re-raised once the attempt budget is exhausted. -/
def get_positions_list_go (env : ClientEnv) :
    Nat → ClientState → Except ClientError WialonResponse × ClientState
  | 0, s => (.error (.invalidSession "Invalid session."), s)
  | n + 1, s =>
    match get_positions_list_once env s with
    | (.error (.invalidSession m), s') =>
      if n = 0 then (.error (.invalidSession m), s')
      else get_positions_list_go env n s'
    | other => other

/-- `get_positions_list` with its decorator (`attempts=3`). -/
def get_positions_list (env : ClientEnv) (s : ClientState) :
    Except ClientError WialonResponse × ClientState :=
  get_positions_list_go env 3 s

/-! ## Handlers (`handlers.py`) -/

/-- The dict returned by `action_auth`. -/
structure AuthResult where
  valid_credentials : Bool
  error : Option String
deriving DecidableEq, Repr

/-- `action_auth`: calls `get_authentication_token`; `WialonErrorException`
and `httpx.HTTPError` are converted into a structured result; any other
exception (none can occur from the login path) would propagate. -/
def action_auth (env : ClientEnv) (s : ClientState) :
    Except ClientError AuthResult × ClientState :=
  match get_authentication_token env s with
  | (.ok _, s') => (.ok ⟨true, none⟩, s')
  | (.error (.wialonError m), s') => (.ok ⟨false, some m⟩, s')
  | (.error (.httpError m), s') => (.ok ⟨false, some m⟩, s')
  | (.error (.invalidSession m), s') => (.error (.invalidSession m), s')

/-- Python list slicing `xs[:n]` for an arbitrary (possibly negative) `int`
bound: `stop = n` when `n` is non-negative, else `max 0 (len + n)`. -/
def pyTake (n : Int) (xs : List α) : List α :=
  if 0 ≤ n then xs.take n.toNat else xs.take (xs.length - (-n).toNat)

/-- The dict returned by `action_fetch_samples` on success. -/
structure FetchSamplesResult where
  observations_extracted : Nat
  observations : List WialonDataResponse
deriving DecidableEq, Repr

/-- `action_fetch_samples`: one `get_positions_list` call; `httpx.HTTPError`
is logged and re-raised, Wialon exceptions are not caught and propagate;
on success the item list is truncated to `observations_to_extract`. -/
def action_fetch_samples (env : ClientEnv) (s : ClientState)
    (observations_to_extract : Int) :
    Except ClientError FetchSamplesResult × ClientState :=
  match get_positions_list env s with
  | (.error e, s') => (.error e, s')
  | (.ok resp, s') =>
    let observations := pyTake observations_to_extract resp.items
    (.ok ⟨observations.length, observations⟩, s')

/-- Outcome of one `send_observations_to_gundi` call. -/
inductive SendOutcome
  | httpError (msg : String)
  | success (response : String)
deriving DecidableEq, Repr

/-- Environment of a `pull_observations` run: the client environment plus
the outcome of the i-th delivery call. -/
structure PullEnv where
  client : ClientEnv
  send : Nat → SendOutcome

/-- The `details` slot of the pull result: initially the empty dict, then
either the delivery response or a text message. -/
inductive PullDetails
  | emptyObj
  | response (r : String)
  | text (msg : String)
deriving DecidableEq, Repr

/-- The dict returned by `action_pull_observations`. -/
structure PullResult where
  observations_extracted : Nat
  details : PullDetails
  message : Option String
  error : Option String
deriving DecidableEq, Repr

/-- Full outcome of an `action_pull_observations` run: its result dict, the
final client state, the final watermark store, how many delivery calls were
made, and whether a delivery succeeded. -/
structure PullOutput where
  result : PullResult
  clientState : ClientState
  wm : Int → Option Int
  sendCalls : Nat
  delivered : Bool

/-- The outer `stamina.retry_context(on=httpx.HTTPError, attempts=n)` loop
around the `get_positions_list` call in `action_pull_observations`: only
`httpx.HTTPError` is retried; Wialon exceptions propagate at once. -/
def fetch_with_retry (env : ClientEnv) :
    Nat → ClientState → Except ClientError WialonResponse × ClientState
  | 0, s => (.error (.httpError ""), s)
  | n + 1, s =>
    match get_positions_list env s with
    | (.error (.httpError m), s') =>
      if n = 0 then (.error (.httpError m), s')
      else fetch_with_retry env n s'
    | other => other

/-- The message stored under `result["message"]` when the delivery call
raises `httpx.HTTPError`. -/
def sensorsErrorText (iid : String) (m : String) : String :=
  s!"Sensors API returned error for integration_id: {iid}. Exception: {m}"

/-- What the delivery phase ends with. -/
inductive SendPhase
  | failed (msg : String)
  | deliveredOk (resp : String)
deriving DecidableEq, Repr

/-- The `stamina.retry_context(on=httpx.HTTPError, attempts=n)` loop around
the `send_observations_to_gundi` call.  The source catches
`httpx.HTTPError` INSIDE the `with attempt:` body and returns the result
dict from there, so the retry context never observes a retryable
exception: every branch of the body ends the loop after one call.
Second returned component: index after the calls made. -/
def send_loop (send : Nat → SendOutcome) (iid : String) :
    Nat → Nat → SendPhase × Nat
  | 0, k => (.failed "", k)
  | _ + 1, k =>
    match send k with
    | .httpError m => (.failed (sensorsErrorText iid m), k + 1)
    | .success r => (.deliveredOk r, k + 1)

/-- The per-device state writes after a successful delivery: for each
vehicle dict in order, `set_state` of
`{latest_device_timestamp: recorded_at}` under subkey `source`. -/
def updateWatermarks (wm : Int → Option Int) : List Observation → (Int → Option Int)
  | [] => wm
  | o :: rest =>
    updateWatermarks (fun k => if k = o.source then some o.recorded_at else wm k) rest

/-- The `details`/`error` message for Wialon exceptions caught by
`action_pull_observations`. -/
def wialonApiErrorText (m : String) : String :=
  s!"Wialon API returned error: {m}"

/-- `action_pull_observations`: fetch with up to 3 attempts on transport
failure, transform and filter against the watermark store, then (when
there is data) deliver and, only on delivery success, write the per-device
watermarks.  All three exception classes are caught and converted into a
structured result dict. -/
def action_pull_observations (env : PullEnv) (cs : ClientState)
    (wm : Int → Option Int) (iid : String) : PullOutput :=
  match fetch_with_retry env.client 3 cs with
  | (.error (.wialonError m), cs') =>
    ⟨⟨0, .text (wialonApiErrorText m), none, some m⟩, cs', wm, 0, false⟩
  | (.error (.invalidSession m), cs') =>
    ⟨⟨0, .text (wialonApiErrorText m), none, some m⟩, cs', wm, 0, false⟩
  | (.error (.httpError m), cs') =>
    ⟨⟨0, .text "pull_observations action returned error.", none, some m⟩, cs', wm, 0, false⟩
  | (.ok resp, cs') =>
    let td := filter_and_transform resp.items wm
    if td.1.isEmpty then
      ⟨⟨0, .text "No transformed data to send.", none, none⟩, cs', wm, 0, false⟩
    else
      match send_loop env.send iid 3 0 with
      | (.failed m, k) =>
        ⟨⟨0, .emptyObj, some m, none⟩, cs', wm, k, false⟩
      | (.deliveredOk r, k) =>
        ⟨⟨td.1.length, .response r, none, none⟩, cs', updateWatermarks wm td.1, k, true⟩

/-! ## Theorems -/

/-- Modelled from the claim's words (spec side of the refinement for C1):
a device with a position is included iff its timestamp is strictly greater
than the stored watermark; with no stored watermark it is always included;
without a position it is never included. -/
def specIncluded (wm : Int → Option Int) (d : WialonDataResponse) : Option Observation :=
  match d.pos with
  | none => none
  | some p =>
    match wm d.id with
    | none => some (transform d p)
    | some w => if w < p.t then some (transform d p) else none

theorem traced_fst (devices : List WialonDataResponse) (wm : Int → Option Int) :
    (filter_and_transform_traced devices wm).1 = devices.filterMap (specIncluded wm) := by
  induction devices with
  | nil => rfl
  | cons d rest ih =>
    cases hp : d.pos with
    | none => simp [filter_and_transform_traced, specIncluded, hp, ih]
    | some p =>
      cases hw : wm d.id with
      | none => simp [filter_and_transform_traced, specIncluded, hp, hw, ih]
      | some w =>
        rcases le_or_lt p.t w with hle | hlt
        · simp [filter_and_transform_traced, specIncluded, hp, hw, ih,
            if_pos hle, if_neg (not_lt.mpr hle)]
        · simp [filter_and_transform_traced, specIncluded, hp, hw, ih,
            if_neg (not_le.mpr hlt), if_pos hlt]

theorem traced_skipped (devices : List WialonDataResponse) (wm : Int → Option Int) :
    (filter_and_transform_traced devices wm).2.1 =
      (devices.filter (fun d => d.pos.isNone)).map (fun d => ⟨d.id, d.nm⟩) := by
  induction devices with
  | nil => rfl
  | cons d rest ih =>
    cases hp : d.pos with
    | none => simp [filter_and_transform_traced, hp, ih]
    | some p =>
      cases hw : wm d.id with
      | none => simp [filter_and_transform_traced, hp, hw, ih]
      | some w =>
        rcases le_or_lt p.t w with hle | hlt
        · simp [filter_and_transform_traced, hp, hw, ih, if_pos hle]
        · simp [filter_and_transform_traced, hp, hw, ih, if_neg (not_le.mpr hlt)]

theorem traced_reads (devices : List WialonDataResponse) (wm : Int → Option Int) :
    (filter_and_transform_traced devices wm).2.2 =
      (devices.filter (fun d => d.pos.isSome)).map (fun d => d.id) := by
  induction devices with
  | nil => rfl
  | cons d rest ih =>
    cases hp : d.pos with
    | none => simp [filter_and_transform_traced, hp, ih]
    | some p =>
      cases hw : wm d.id with
      | none => simp [filter_and_transform_traced, hp, hw, ih]
      | some w =>
        rcases le_or_lt p.t w with hle | hlt
        · simp [filter_and_transform_traced, hp, hw, ih, if_pos hle]
        · simp [filter_and_transform_traced, hp, hw, ih, if_neg (not_le.mpr hlt)]

theorem filterMap_specIncluded_filter (devices : List WialonDataResponse)
    (wm : Int → Option Int) :
    (devices.filter (fun d => d.pos.isSome)).filterMap (specIncluded wm) =
      devices.filterMap (specIncluded wm) := by
  induction devices with
  | nil => rfl
  | cons d rest ih =>
    cases hp : d.pos with
    | none => simp [specIncluded, hp, ih]
    | some p => simp [hp, List.filterMap_cons, ih]

/-- C1: `filter_and_transform` includes a device record with a position in
the transformed output iff either no watermark is stored for the device or
the position timestamp is strictly greater than the stored watermark;
records with timestamp less than or equal to the watermark are excluded.
The output list equals, device by device, the filter the claim describes
(`specIncluded`, written from the claim's words). -/
theorem filter_and_transform_watermark_filter (devices : List WialonDataResponse)
    (wm : Int → Option Int) :
    (filter_and_transform devices wm).1 = devices.filterMap (specIncluded wm) :=
  traced_fst devices wm

/-- C6: every device record without a position goes (with its id and name)
to the skipped-devices list, never contributes an observation (the
observation list equals the one computed from the position-carrying
records alone), and no watermark read is issued for it (the read trace
lists exactly the position-carrying devices); `filter_and_transform`
contains no state write at all. -/
theorem filter_and_transform_skips_positionless (devices : List WialonDataResponse)
    (wm : Int → Option Int) :
    (filter_and_transform devices wm).2 =
        (devices.filter (fun d => d.pos.isNone)).map (fun d => ⟨d.id, d.nm⟩)
      ∧ (filter_and_transform devices wm).1 =
        (filter_and_transform (devices.filter (fun d => d.pos.isSome)) wm).1
      ∧ watermarkReads devices wm =
        (devices.filter (fun d => d.pos.isSome)).map (fun d => d.id) := by
  refine ⟨traced_skipped devices wm, ?_, traced_reads devices wm⟩
  show (filter_and_transform_traced devices wm).1 =
    (filter_and_transform_traced (devices.filter (fun d => d.pos.isSome)) wm).1
  rw [traced_fst, traced_fst, filterMap_specIncluded_filter]

/-- C9: with a cached token in the state store, `build_request_params`
returns it as `sid` together with the serialized query params and the
state is untouched (no login call: `loginCalls` unchanged); with no cached
token, one login call is made and the login response's `eid` becomes
`sid` (and is cached). -/
theorem build_request_params_uses_cached_token (env : ClientEnv) (s : ClientState)
    (tok eid : String) :
    (s.session = some tok →
      build_request_params env s = (.ok ⟨wialonRequestParamsJson, tok⟩, s))
    ∧ (s.session = none → env.login s.loginCalls = .successBody eid →
      build_request_params env s =
        (.ok ⟨wialonRequestParamsJson, eid⟩,
          { s with session := some eid, loginCalls := s.loginCalls + 1 })) := by
  constructor
  · intro h
    simp [build_request_params, h]
  · intro h hl
    simp [build_request_params, h, get_authentication_token, hl]

def c9Env : ClientEnv :=
  { login := fun _ => .successBody "token456", positions := fun _ => .body none [] }

/-- Witness for C9 at a concrete state store and login environment. -/
theorem build_request_params_uses_cached_token_witness :
    build_request_params c9Env ⟨some "token123", 0, 0⟩ =
      (.ok ⟨wialonRequestParamsJson, "token123"⟩, ⟨some "token123", 0, 0⟩)
    ∧ build_request_params c9Env ⟨none, 0, 0⟩ =
      (.ok ⟨wialonRequestParamsJson, "token456"⟩, ⟨some "token456", 1, 0⟩) :=
  ⟨(build_request_params_uses_cached_token c9Env ⟨some "token123", 0, 0⟩
      "token123" "token456").1 rfl,
   (build_request_params_uses_cached_token c9Env ⟨none, 0, 0⟩
      "token123" "token456").2 rfl rfl⟩

theorem positions_vendor_error_step (env : ClientEnv) (s : ClientState)
    (tok : String) (code : Int) (items : List WialonDataResponse)
    (hses : s.session = some tok)
    (hpos : env.positions s.posCalls = .body (some code) items)
    (hcode : code ≠ 1) :
    get_positions_list env s =
      (.error (.wialonError (positionsErrorText code)),
        { s with posCalls := s.posCalls + 1 }) := by
  have o : get_positions_list_once env s =
      (.error (.wialonError (positionsErrorText code)),
        { s with posCalls := s.posCalls + 1 }) := by
    simp [get_positions_list_once, build_request_params, hses, hpos, hcode]
  simp [get_positions_list, get_positions_list_go, o]

/-- C5: a positions response whose body carries a non-zero `error` code
other than 1 makes `get_positions_list` raise `WialonErrorException`
immediately: exactly one positions call, no retry, no login, the cached
session is kept, and the code is embedded in the message. -/
theorem get_positions_list_vendor_error_no_retry (env : ClientEnv) (s : ClientState)
    (tok : String) (code : Int) (items : List WialonDataResponse)
    (hses : s.session = some tok)
    (hpos : env.positions s.posCalls = .body (some code) items)
    (_hzero : code ≠ 0) (hone : code ≠ 1) :
    get_positions_list env s =
      (.error (.wialonError (positionsErrorText code)),
        { s with posCalls := s.posCalls + 1 }) :=
  positions_vendor_error_step env s tok code items hses hpos hone

def c5Env : ClientEnv :=
  { login := fun _ => .successBody "fresh", positions := fun _ => .body (some 5) [] }

/-- Witness for C5: `{error: 5}` surfaces as `WialonErrorException` after a
single positions call, session kept. -/
theorem get_positions_list_vendor_error_no_retry_witness :
    get_positions_list c5Env ⟨some "tok", 0, 0⟩ =
      (.error (.wialonError "Error 5 occurred while fetching positions"),
        ⟨some "tok", 0, 1⟩) :=
  get_positions_list_vendor_error_no_retry c5Env ⟨some "tok", 0, 0⟩ "tok" 5 []
    rfl rfl (by decide) (by decide)

/-- C10: an `error` key with value 0 is treated as an error, not success:
`get_positions_list` raises the non-retryable `WialonErrorException`
(message `Error 0 ...`) after a single call, keeping the cached session;
and `get_authentication_token` raises `WialonErrorException` and caches
no token (session field unchanged).  The presence of the `error` key, not
a non-zero value, selects the error path. -/
theorem error_key_zero_selects_error_path (env : ClientEnv) (s s2 : ClientState)
    (tok : String) (items : List WialonDataResponse) (reason : Option String)
    (hses : s.session = some tok)
    (hpos : env.positions s.posCalls = .body (some 0) items)
    (hlog : env.login s2.loginCalls = .errorBody 0 reason) :
    get_positions_list env s =
      (.error (.wialonError (positionsErrorText 0)),
        { s with posCalls := s.posCalls + 1 })
    ∧ get_authentication_token env s2 =
      (.error (.wialonError (loginErrorText 0 reason)),
        { s2 with loginCalls := s2.loginCalls + 1 }) := by
  constructor
  · exact positions_vendor_error_step env s tok 0 items hses hpos (by decide)
  · simp [get_authentication_token, hlog]

def c10Env : ClientEnv :=
  { login := fun _ => .errorBody 0 none, positions := fun _ => .body (some 0) [] }

/-- Witness for C10 at a concrete environment returning `{error: 0}` from
both endpoints. -/
theorem error_key_zero_selects_error_path_witness :
    get_positions_list c10Env ⟨some "tok", 0, 0⟩ =
      (.error (.wialonError "Error 0 occurred while fetching positions"),
        ⟨some "tok", 0, 1⟩)
    ∧ get_authentication_token c10Env ⟨none, 0, 0⟩ =
      (.error (.wialonError "Error 0 occurred while fetching token"),
        ⟨none, 1, 0⟩) :=
  error_key_zero_selects_error_path c10Env ⟨some "tok", 0, 0⟩ ⟨none, 0, 0⟩
    "tok" [] none rfl rfl rfl

/-- C4: when every positions response carries `{error: 1}`,
`get_positions_list` (starting with a cached session token) deletes the
cached token and retries the whole fetch; each retry re-enters the session
manager and performs a fresh login since the cache is empty.  3 total
positions attempts are made (2 fresh logins), and only then is the
invalid-session failure surfaced, with the cache left empty. -/
theorem get_positions_list_invalid_session_retries (env : ClientEnv)
    (items : Nat → List WialonDataResponse) (eids : Nat → String) (tok : String)
    (hpos : ∀ i, env.positions i = .body (some 1) (items i))
    (hlog : ∀ k, env.login k = .successBody (eids k)) :
    get_positions_list env ⟨some tok, 0, 0⟩ =
      (.error (.invalidSession "Invalid session."), ⟨none, 2, 3⟩) := by
  have o1 : get_positions_list_once env ⟨some tok, 0, 0⟩ =
      (.error (.invalidSession "Invalid session."), ⟨none, 0, 1⟩) := by
    simp [get_positions_list_once, build_request_params, hpos 0]
  have o2 : get_positions_list_once env ⟨none, 0, 1⟩ =
      (.error (.invalidSession "Invalid session."), ⟨none, 1, 2⟩) := by
    simp [get_positions_list_once, build_request_params, get_authentication_token,
      hlog 0, hpos 1]
  have o3 : get_positions_list_once env ⟨none, 1, 2⟩ =
      (.error (.invalidSession "Invalid session."), ⟨none, 2, 3⟩) := by
    simp [get_positions_list_once, build_request_params, get_authentication_token,
      hlog 1, hpos 2]
  simp [get_positions_list, get_positions_list_go, o1, o2, o3]

def c4Env : ClientEnv :=
  { login := fun _ => .successBody "fresh", positions := fun _ => .body (some 1) [] }

/-- Witness for C4: a vendor that always answers `{error: 1}` exhausts the
3 attempts (2 fresh logins in between) and surfaces the failure. -/
theorem get_positions_list_invalid_session_retries_witness :
    get_positions_list c4Env ⟨some "tok", 0, 0⟩ =
      (.error (.invalidSession "Invalid session."), ⟨none, 2, 3⟩) :=
  get_positions_list_invalid_session_retries c4Env (fun _ => []) (fun _ => "fresh")
    "tok" (fun _ => rfl) (fun _ => rfl)

/-- C2: in `action_pull_observations` the per-device watermark state is
written only after a successful delivery call: any run in which no
delivery succeeded (fetch failed, nothing to send, or the delivery call
failed terminally) leaves the whole watermark store unchanged. -/
theorem pull_watermark_unchanged_without_delivery (env : PullEnv) (cs : ClientState)
    (wm : Int → Option Int) (iid : String)
    (h : (action_pull_observations env cs wm iid).delivered = false) :
    (action_pull_observations env cs wm iid).wm = wm := by
  revert h
  unfold action_pull_observations
  obtain ⟨res, cs'⟩ := fetch_with_retry env.client 3 cs
  rcases res with e | resp
  · rcases e with m | m | m <;> intro _ <;> rfl
  · by_cases he : (filter_and_transform resp.items wm).1.isEmpty
    · simp only [he, if_true]
      intro _
      trivial
    · obtain ⟨sp, k⟩ := send_loop env.send iid 3 0
      simp only [he, if_false]
      rcases sp with m | r
      · intro _
        rfl
      · intro h
        simp at h

def c2Device : WialonDataResponse :=
  ⟨"Device 1", 1, some ⟨100, 0, 10, 20, 0, 0, 0, 0⟩⟩

def c2Env : PullEnv :=
  { client := { login := fun _ => .successBody "sid",
                positions := fun _ => .body none [c2Device] },
    send := fun _ => .httpError "boom" }

/-- Witness for C2: a run whose delivery call fails leaves the watermark
store exactly as it was. -/
theorem pull_watermark_unchanged_without_delivery_witness :
    (action_pull_observations c2Env ⟨some "sid", 0, 0⟩ (fun _ => none) "itg").delivered = false
    ∧ (action_pull_observations c2Env ⟨some "sid", 0, 0⟩ (fun _ => none) "itg").wm =
        (fun _ => none) :=
  ⟨rfl, pull_watermark_unchanged_without_delivery c2Env ⟨some "sid", 0, 0⟩
    (fun _ => none) "itg" rfl⟩

def c3Device : WialonDataResponse :=
  ⟨"Device 1", 1, some ⟨100, 0, 10, 20, 0, 0, 0, 0⟩⟩

def c3Env : PullEnv :=
  { client := { login := fun _ => .successBody "sid",
                positions := fun _ => .body none [c3Device] },
    send := fun k => if k = 0 then .httpError "boom" else .success "ok" }

/-- C3 (code bug): the delivery call is NOT retried.  The source wraps
`send_observations_to_gundi` in
`stamina.retry_context(on=httpx.HTTPError, attempts=3)`, but catches
`httpx.HTTPError` inside the `with attempt:` body and returns the result
dict from there, so the retry context never observes the exception.  Here
the first delivery attempt fails with a transport error and the second
would succeed, yet the run makes exactly one delivery call and reports the
terminal delivery failure. -/
theorem pull_delivery_not_retried :
    (action_pull_observations c3Env ⟨some "sid", 0, 0⟩ (fun _ => none) "itg").sendCalls = 1
    ∧ (action_pull_observations c3Env ⟨some "sid", 0, 0⟩ (fun _ => none) "itg").delivered = false
    ∧ (action_pull_observations c3Env ⟨some "sid", 0, 0⟩ (fun _ => none) "itg").result.message =
        some (sensorsErrorText "itg" "boom") :=
  ⟨rfl, rfl, rfl⟩

/-- C7: `action_auth` converts vendor-level and transport failures into a
structured result carrying an error message (it never raises from the
login path); `action_pull_observations` converts every client failure
into a structured result with its `error` slot set; `action_fetch_samples`
re-raises transport and vendor errors to its caller unchanged. -/
theorem handlers_propagation_policy (envA : ClientEnv) (sA : ClientState)
    (envP : PullEnv) (cs : ClientState) (wm : Int → Option Int) (iid : String)
    (envF : ClientEnv) (sF : ClientState) (n : Int) :
    (∃ r sA', action_auth envA sA = (.ok r, sA')
        ∧ (r.valid_credentials = false → r.error.isSome = true))
    ∧ (∀ e cs', fetch_with_retry envP.client 3 cs = (.error e, cs') →
        ((action_pull_observations envP cs wm iid).result.error).isSome = true)
    ∧ (∀ e sF', get_positions_list envF sF = (.error e, sF') →
        action_fetch_samples envF sF n = (.error e, sF')) := by
  refine ⟨?_, ?_, ?_⟩
  · rcases hl : envA.login sA.loginCalls with m | ⟨code, reason⟩ | eid
    · refine ⟨⟨false, some m⟩, { sA with loginCalls := sA.loginCalls + 1 }, ?_, ?_⟩
      · simp [action_auth, get_authentication_token, hl]
      · intro _; rfl
    · refine ⟨⟨false, some (loginErrorText code reason)⟩,
        { sA with loginCalls := sA.loginCalls + 1 }, ?_, ?_⟩
      · simp [action_auth, get_authentication_token, hl]
      · intro _; rfl
    · refine ⟨⟨true, none⟩,
        { sA with session := some eid, loginCalls := sA.loginCalls + 1 }, ?_, ?_⟩
      · simp [action_auth, get_authentication_token, hl]
      · intro h; simp at h
  · intro e cs' hf
    unfold action_pull_observations
    rw [hf]
    rcases e with m | m | m <;> rfl
  · intro e sF' hg
    unfold action_fetch_samples
    rw [hg]

def c7AuthEnv : ClientEnv :=
  { login := fun _ => .errorBody 4 (some "bad"), positions := fun _ => .body none [] }

def c7FetchEnv : ClientEnv :=
  { login := fun _ => .successBody "sid", positions := fun _ => .body (some 5) [] }

def c7PullEnv : PullEnv :=
  { client := c7FetchEnv, send := fun _ => .success "ok" }

/-- Witness for C7: a vendor error reaches `action_pull_observations` as a
structured result with the error slot set, and is re-raised unchanged by
`action_fetch_samples`. -/
theorem handlers_propagation_policy_witness :
    ((action_pull_observations c7PullEnv ⟨some "t", 0, 0⟩ (fun _ => none) "i").result.error).isSome = true
    ∧ action_fetch_samples c7FetchEnv ⟨some "t", 0, 0⟩ 20 =
        (.error (.wialonError "Error 5 occurred while fetching positions"), ⟨some "t", 0, 1⟩) :=
  ⟨(handlers_propagation_policy c7AuthEnv ⟨none, 0, 0⟩ c7PullEnv ⟨some "t", 0, 0⟩
      (fun _ => none) "i" c7FetchEnv ⟨some "t", 0, 0⟩ 20).2.1
      (.wialonError "Error 5 occurred while fetching positions") ⟨some "t", 0, 1⟩ rfl,
   (handlers_propagation_policy c7AuthEnv ⟨none, 0, 0⟩ c7PullEnv ⟨some "t", 0, 0⟩
      (fun _ => none) "i" c7FetchEnv ⟨some "t", 0, 0⟩ 20).2.2
      (.wialonError "Error 5 occurred while fetching positions") ⟨some "t", 0, 1⟩ rfl⟩

def c8d1 : WialonDataResponse := ⟨"A", 1, none⟩

def c8d2 : WialonDataResponse := ⟨"B", 2, none⟩

def c8Env : ClientEnv :=
  { login := fun _ => .successBody "sid", positions := fun _ => .body none [c8d1, c8d2] }

/-- Counterexample to C8 as stated: with `observations_to_extract = -1`
(the config field is a plain int) and two fetched devices, Python slicing
`[:-1]` returns one observation, which is not "at most
observations_to_extract". -/
theorem fetch_samples_truncation_counterexample :
    (action_fetch_samples c8Env ⟨some "sid", 0, 0⟩ (-1)).1 = .ok ⟨1, [c8d1]⟩
    ∧ ¬ ((1 : Int) ≤ -1) :=
  ⟨rfl, by decide⟩

/-- C8 (amended): for every non-negative `observations_to_extract`,
`action_fetch_samples` returns at most that many observations (truncating
when more are available), and the returned `observations_extracted` count
equals the length of the returned observation list.  (For a negative
value, Python slicing drops trailing elements instead of bounding the
count.) -/
theorem fetch_samples_truncates (env : ClientEnv) (s s' : ClientState)
    (n : Int) (hn : 0 ≤ n) (resp : FetchSamplesResult)
    (hok : action_fetch_samples env s n = (.ok resp, s')) :
    (resp.observations.length : Int) ≤ n
    ∧ resp.observations_extracted = resp.observations.length := by
  unfold action_fetch_samples at hok
  rcases hg : get_positions_list env s with ⟨res, s2⟩
  rw [hg] at hok
  cases res with
  | error e => simp at hok
  | ok r =>
    simp only [Prod.mk.injEq, Except.ok.injEq] at hok
    obtain ⟨hresp, -⟩ := hok
    subst hresp
    refine ⟨?_, rfl⟩
    show ((pyTake n r.items).length : Int) ≤ n
    have hlen : (pyTake n r.items).length ≤ n.toNat := by
      unfold pyTake
      rw [if_pos hn]
      exact List.length_take_le _ _
    omega

/-- Witness for the amended C8 at a concrete environment with two devices
and `observations_to_extract = 1`. -/
theorem fetch_samples_truncates_witness :
    (0 : Int) ≤ 1
    ∧ (((⟨1, [c8d1]⟩ : FetchSamplesResult).observations.length : Int) ≤ 1
      ∧ (⟨1, [c8d1]⟩ : FetchSamplesResult).observations_extracted =
          (⟨1, [c8d1]⟩ : FetchSamplesResult).observations.length) :=
  ⟨by decide, fetch_samples_truncates c8Env ⟨some "sid", 0, 0⟩ ⟨some "sid", 0, 1⟩
    1 (by decide) ⟨1, [c8d1]⟩ rfl⟩

end Wialon
